import Mathlib

/-!
# Verification of the DLTS device-communication and scan-acquisition core

Shallow embedding of `dltscontrol/dlts.py` (and the reflection scan variant in
`dltscontrol/app/reflectionscanning.py`).  Bytes are modelled as `Nat` (values
`< 256` where it matters), byte strings as `List Nat`, Python `int` as `Int`,
Python `float` results of exact small-integer arithmetic as `ℚ`.

The byte transport (`_readUnlocked` etc. of `ByteStreamBasedDltsConnection`) is
modelled as a list of available input bytes: a read of `n` bytes delivers the
first `min n available` bytes and afterwards the stream is silent (a further
read delivers nothing) — exactly the "delivers X then nothing" transports of
the concrete scenarios.  Python exceptions are modelled with an explicit error
type; every operation returns the raised error (or its result) together with
the state at the moment control leaves the operation, so that `try/except`
blocks of the source can be translated faithfully.
-/

namespace Dlts

/-- Python-level exceptions that the embedded code can raise.
`dltsTimeout ..= DltsTimeoutError`, `dltsAcquisition ..= DltsConnectionAcquisitionError`,
`dltsProtocol ..= DltsProtocolError`, `dltsFirmware ..= DltsFirmwareError`,
`dltsException ..= DltsException` (base class, raised by `_encodeToUInt16`),
`dltsControlFlow ..= DltsControlFlowError`, `typeError ..= TypeError` (e.g.
`bytearray.endswith` applied to a `str`), `runtimeError ..= RuntimeError`
(releasing an un-acquired `threading.RLock`), `zeroDivision ..= ZeroDivisionError`,
`unicodeDecodeError ..= UnicodeDecodeError` (decoding a non-ASCII response header). -/
inductive PyError : Type where
  | dltsTimeout : PyError
  | dltsAcquisition : PyError
  | dltsProtocol (got expected commandHeader : List Nat) : PyError
  | dltsFirmware (message commandHeader : List Nat) : PyError
  | dltsException : PyError
  | dltsControlFlow : PyError
  | typeError : PyError
  | runtimeError : PyError
  | zeroDivision : PyError
  | unicodeDecodeError : PyError
  deriving DecidableEq, Repr

/-! ## ASCII constants of `DltsConstants` -/

/-- `DltsConstants.DLTS_RESPONSE_ACKNOWLEDGE = "ack"` as ASCII bytes. -/
def ackHeader : List Nat := [97, 99, 107]

/-- `DltsConstants.DLTS_RESPONSE_ERROR = "err"` as ASCII bytes. -/
def errHeader : List Nat := [101, 114, 114]

/-- `DltsConstants.DLTS_RESPONSE_DATA = "dat"` as ASCII bytes. -/
def datHeader : List Nat := [100, 97, 116]

/-- `DltsConstants.DLTS_RESPONSE_HEADER_LENGTH` / `DLTS_COMMAND_HEADER_LENGTH`. -/
def headerLength : Nat := 3

/-! ## The command protocol codec (`DltsCommand`) -/

/-- `DltsCommand._encodeToUInt16`: `value.to_bytes(2, "big")`, which raises
`OverflowError` when the value does not fit two unsigned big-endian bytes
(too large, or negative); the source catches it and raises
the typed `DltsException` instead. -/
def encodeToUInt16 (value : Int) : Except PyError (List Nat) :=
  if 0 ≤ value ∧ value < 65536 then
    .ok [value.toNat / 256, value.toNat % 256]
  else
    .error .dltsException

/-- `DltsCommand.SetUInt16(setSubject, value)`:
`"s" ++ setSubject` (ASCII, `115 = 's'`) followed by the two payload bytes. -/
def SetUInt16 (setSubject : List Nat) (value : Int) : Except PyError (List Nat) :=
  (encodeToUInt16 value).map (fun payload => 115 :: setSubject ++ payload)

/-- `DltsCommand.SetPosition(axis, position)`: subject `"p" ++ axis` (`112 = 'p'`). -/
def SetPosition (axis : Nat) (position : Int) : Except PyError (List Nat) :=
  SetUInt16 [112, axis] position

/-- `DltsCommand.SetXPosition(position)` (axis `"x"`, `120 = 'x'`). -/
def SetXPosition (position : Int) : Except PyError (List Nat) :=
  SetPosition 120 position

/-- Big-endian interpretation of a byte string, `int.from_bytes(bs, "big")`. -/
def bytesToNat (bs : List Nat) : Nat :=
  bs.foldl (fun acc b => acc * 256 + b) 0

/-! ## `ScanAreaConfig` -/

/-- `ScanAreaConfig.__init__`: immutable container of scan area and delay
parameters.  `intensityMultiplier` defaults to 1 when the constructor argument
is `None`. -/
structure ScanAreaConfig where
  xBounds : Int × Int
  yBounds : Int × Int
  stepSize : Int × Int
  delayTime_ms : Int × Int
  intensityMultiplier : Int := 1
  deriving DecidableEq, Repr

namespace ScanAreaConfig

def XBoundsLow (c : ScanAreaConfig) : Int := c.xBounds.1
def XBoundsHigh (c : ScanAreaConfig) : Int := c.xBounds.2
def YBoundsLow (c : ScanAreaConfig) : Int := c.yBounds.1
def YBoundsHigh (c : ScanAreaConfig) : Int := c.yBounds.2
def XStepSize (c : ScanAreaConfig) : Int := c.stepSize.1
def YStepSize (c : ScanAreaConfig) : Int := c.stepSize.2

/-- `ScanAreaConfig.ScanPositionsCountInX`:
`math.floor((XBoundsHigh - XBoundsLow) / XStepSize) + 1`.  Python divides as
floats; for the integer ranges of the device (well below `2^53`) `math.floor` of
that quotient is the exact rational floor, i.e. `Int.fdiv`.  (Step size 0
would raise `ZeroDivisionError` in Python; all claims assume step ≥ 1.) -/
def ScanPositionsCountInX (c : ScanAreaConfig) : Int :=
  (c.XBoundsHigh - c.XBoundsLow).fdiv c.XStepSize + 1

/-- `ScanAreaConfig.ScanPositionsCountInY`:
`math.floor((YBoundsHigh - YBoundsLow) / YStepSize) + 1`. -/
def ScanPositionsCountInY (c : ScanAreaConfig) : Int :=
  (c.YBoundsHigh - c.YBoundsLow).fdiv c.YStepSize + 1

/-- `ScanAreaConfig.ScanPositionsCount`: the active `return` multiplies the two
per-axis counts (the intensity-multiplier variants are commented out in the
source). -/
def ScanPositionsCount (c : ScanAreaConfig) : Int :=
  c.ScanPositionsCountInX * c.ScanPositionsCountInY

/-- `ScanAreaConfig.ScanResolution`: `(ScanPositionsCountInX, ScanPositionsCountInY)`. -/
def ScanResolution (c : ScanAreaConfig) : Int × Int :=
  (c.ScanPositionsCountInX, c.ScanPositionsCountInY)

end ScanAreaConfig

/-! ## `ScanImage` array assembly and the reflection variant -/

/-- `ScanImage._createImageArray` for the default data depth 1 (the
`_IMAGE_ARRAY_DATA_DEPTH > 1` branches are not taken): the array has shape
`reversed(resolution)` — `resolution.2` rows of `resolution.1` columns —
pre-filled with the default value, and the first `values.length` cells of its
row-major flattening are overwritten with the converted data-point values
(`imageView[:slices.size] = slices`), in arrival order.  (numpy would raise
on more values than cells; no caller in the claims exceeds the capacity.) -/
def createImageArray1 (resolution : Int × Int) (defaultValue : Int)
    (values : List Int) : List (List Int) :=
  let rows := resolution.2.toNat
  let cols := resolution.1.toNat
  let flat := values.take (rows * cols) ++
    List.replicate (rows * cols - values.length) defaultValue
  (List.range rows).map (fun r =>
    (List.range cols).map (fun c => flat.getD (r * cols + c) defaultValue))

/-- `ReflectionScanDataPoint.getLaserReflection`:
`int.from_bytes(RawData, "big")`. -/
def getLaserReflection (rawData : List Nat) : Int :=
  bytesToNat rawData

/-- The backing array of `ReflectionImage`: `convertDataPoint` is
`getLaserReflection`, default value 0, data type `int`, depth 1. -/
def reflectionImageArray (resolution : Int × Int)
    (dataPoints : List (List Nat)) : List (List Int) :=
  createImageArray1 resolution 0 (dataPoints.map getLaserReflection)

/-- `IScanImage.getDataPointsCapacity`: `np.prod(resolution)`. -/
def imageDataPointsCapacity (resolution : Int × Int) : Int :=
  resolution.1 * resolution.2

/-- `IScanImage.getCompletion`: `getDataPointsCount() / getDataPointsCapacity()`
(Python float division of the point count by `np.prod(resolution)`; every use
in the claims has a positive capacity, so the division is well defined). -/
def imageCompletion (resolution : Int × Int) (dataPointsCount : Nat) : ℚ :=
  (dataPointsCount : ℚ) / (imageDataPointsCapacity resolution : ℚ)

/-- The concrete configuration of the assembly scenario:
`xBounds=(0,4), yBounds=(0,2), step=(2,1), delay=(0,0)`. -/
def exampleConfig : ScanAreaConfig :=
  { xBounds := (0, 4), yBounds := (0, 2), stepSize := (2, 1), delayTime_ms := (0, 0) }

/-- Nine single-byte data points valued 0..8, in raster (arrival) order. -/
def examplePoints : List (List Nat) :=
  [[0], [1], [2], [3], [4], [5], [6], [7], [8]]

/-- A configuration whose derived capacity is zero:
`xBounds=(1,0)` (high below low) with `xStep=2` gives
`floor((0-1)/2)+1 = 0` positions in x. -/
def zeroCapacityConfig : ScanAreaConfig :=
  { xBounds := (1, 0), yBounds := (0, 0), stepSize := (2, 1), delayTime_ms := (0, 0) }

/-! ## Scan progress (`IScan.getProgressPercentage`) -/

/-- `IScan.getProgressPercentage`:
`scanned / capacity if capacity is not None else 0.0` — the guard tests for
`None`, not for zero, so a capacity of `0` reaches the division and Python
raises `ZeroDivisionError`. -/
def getProgressPercentage (scannedPointsCount : Nat)
    (scanPointsCount : Option Int) : Except PyError ℚ :=
  match scanPointsCount with
  | some capacity =>
      if capacity = 0 then .error .zeroDivision
      else .ok ((scannedPointsCount : ℚ) / (capacity : ℚ))
  | none => .ok 0

/-- `Scan.getScanPointsCount`: `configuration.ScanPositionsCount` — always an
`int`, never `None`. -/
def scanGetScanPointsCount (cfg : ScanAreaConfig) : Option Int :=
  some cfg.ScanPositionsCount

/-- The progress of `Scan`: `IScan.getProgressPercentage` with the point count of `Scan`. -/
def scanGetProgressPercentage (scannedPointsCount : Nat)
    (cfg : ScanAreaConfig) : Except PyError ℚ :=
  getProgressPercentage scannedPointsCount (scanGetScanPointsCount cfg)

/-! ## `DltsConnection`

Threads are modelled by `Nat` identifiers.  Each operation takes the calling
thread and the connection state and returns the Python result — the value, or
the raised exception — together with the state at the moment control leaves
the operation. -/

/-- Model of `threading.RLock`: the owning thread, if any, and its recursion
count (positive while owned). -/
structure RLock where
  owner : Option Nat
  count : Nat
  deriving DecidableEq, Repr

/-- `RLock.acquire(blocking=False)` called by thread `t`: succeeds on a free
lock or reentrantly on an already-owned one, fails (returns `False` without
blocking) when another thread owns it. -/
def RLock.tryAcquire (t : Nat) (l : RLock) : Bool × RLock :=
  match l.owner with
  | none => (true, ⟨some t, 1⟩)
  | some u => if u = t then (true, ⟨some t, l.count + 1⟩) else (false, l)

/-- `RLock.release()` called by thread `t`: raises
`RuntimeError: cannot release un-acquired lock` when `t` is not the owner. -/
def RLock.releaseLock (t : Nat) (l : RLock) : Except PyError RLock :=
  match l.owner with
  | some u =>
      if u = t then .ok ⟨if l.count ≤ 1 then none else some u, l.count - 1⟩
      else .error .runtimeError
  | none => .error .runtimeError

/-- State of a `DltsConnection` together with its byte transport:
`lock ..= _comLock`, `acquired ..= _acquired`, `input` the bytes the device
will deliver (with silence afterwards), `output` the bytes written so far. -/
structure ConnState where
  lock : RLock
  acquired : Bool
  input : List Nat
  output : List Nat
  deriving DecidableEq, Repr

/-- A fresh, open, un-acquired connection whose transport will deliver the
given bytes. -/
def freshConn (input : List Nat) : ConnState :=
  { lock := ⟨none, 0⟩, acquired := false, input := input, output := [] }

namespace DltsConnection

/-- `DltsConnection.IsAcquiredByMe` evaluated by thread `t`: try to take the
lock non-blockingly; on success read `_acquired` and release again. -/
def isAcquiredByMe (t : Nat) (st : ConnState) : Except PyError Bool × ConnState :=
  match st.lock.tryAcquire t with
  | (false, l) => (.ok false, { st with lock := l })
  | (true, l1) =>
      match RLock.releaseLock t l1 with
      | .ok l2 => (.ok st.acquired, { st with lock := l2 })
      | .error e => (.error e, { st with lock := l1 })

/-- `DltsConnection._acquireForTemporaryUsage`: non-blocking lock acquisition,
raising `DltsConnectionAcquisitionError` when it fails. -/
def acquireForTemporaryUsage (t : Nat) (st : ConnState) :
    Except PyError Unit × ConnState :=
  match st.lock.tryAcquire t with
  | (true, l) => (.ok (), { st with lock := l })
  | (false, l) => (.error .dltsAcquisition, { st with lock := l })

/-- `DltsConnection._releaseFromTemporaryUsage`: `self._comLock.release()`. -/
def releaseFromTemporaryUsage (t : Nat) (st : ConnState) :
    Except PyError Unit × ConnState :=
  match RLock.releaseLock t st.lock with
  | .ok l => (.ok (), { st with lock := l })
  | .error e => (.error e, st)

/-- `DltsConnection.release` (source lines 402–407): clear `_acquired` if
`IsAcquiredByMe`, then `self._comLock.release()` — which raises `RuntimeError`
when the calling thread does not hold the lock. -/
def release (t : Nat) (st : ConnState) : Except PyError Unit × ConnState :=
  match isAcquiredByMe t st with
  | (.error e, st1) => (.error e, st1)
  | (.ok b, st1) =>
      let st2 := if b then { st1 with acquired := false } else st1
      match RLock.releaseLock t st2.lock with
      | .ok l => (.ok (), { st2 with lock := l })
      | .error e => (.error e, st2)

/-- `ByteStreamBasedDltsConnection._readUnlocked(size)`: deliver the first
`size` available bytes (fewer when the stream is exhausted — the "soft" read
of the transport). -/
def readUnlocked (size : Nat) (st : ConnState) : List Nat × ConnState :=
  (st.input.take size, { st with input := st.input.drop size })

/-- `ByteStreamBasedDltsConnection._readAllUnlocked()`: drain everything. -/
def readAllUnlocked (st : ConnState) : List Nat × ConnState :=
  (st.input, { st with input := [] })

/-- `ByteStreamBasedDltsConnection._writeUnlocked(data)`. -/
def writeUnlocked (data : List Nat) (st : ConnState) : Nat × ConnState :=
  (data.length, { st with output := st.output ++ data })

/-- `DltsConnection.write(data)`: temporary acquisition around the raw write. -/
def write (t : Nat) (data : List Nat) (st : ConnState) :
    Except PyError Nat × ConnState :=
  match acquireForTemporaryUsage t st with
  | (.error e, st1) => (.error e, st1)
  | (.ok _, st1) =>
      let (n, st2) := writeUnlocked data st1
      match releaseFromTemporaryUsage t st2 with
      | (.ok _, st3) => (.ok n, st3)
      | (.error e, st3) => (.error e, st3)

/-- `DltsConnection.read(size, force)` (source lines 437–449): raw read of
`size` bytes; if `force` and fewer bytes arrived, raise `DltsTimeoutError`
(from inside the `try`, so the `finally` still releases the lock). -/
def read (t : Nat) (size : Nat) (force : Bool) (st : ConnState) :
    Except PyError (List Nat) × ConnState :=
  match acquireForTemporaryUsage t st with
  | (.error e, st1) => (.error e, st1)
  | (.ok _, st1) =>
      let (received, st2) := readUnlocked size st1
      let result : Except PyError (List Nat) :=
        if force ∧ received.length < size then .error .dltsTimeout
        else .ok received
      match releaseFromTemporaryUsage t st2 with
      | (.ok _, st3) => (result, st3)
      | (.error e, st3) => (.error e, st3)

/-- The `while` guard of `DltsConnection.readUntil`, verbatim:
`not received.endswith(terminator) and (size is None or size < len(received))`.
Note the comparison direction of the size cap: `size < len(received)`. -/
def readUntilContinue (terminator : List Nat) (size : Option Nat)
    (received : List Nat) : Bool :=
  !(terminator.isSuffixOf received) &&
    (match size with
     | none => true
     | some n => decide (n < received.length))

/-- The loop of `DltsConnection.readUntil` with `force = True` (every call in
the module uses the default `force=True`; with `force=False` a starved
transport would make the Python loop append a zero byte value
forever, so that case is not modelled).  One byte is read per iteration; an
empty single-byte read raises `DltsTimeoutError`.  Recursion is on the
remaining transport input. -/
def readUntilLoop (terminator : List Nat) (size : Option Nat) :
    List Nat → List Nat → Except PyError (List Nat × List Nat)
  | input, received =>
    if readUntilContinue terminator size received then
      match input with
      | [] => .error .dltsTimeout
      | b :: rest => readUntilLoop terminator size rest (received ++ [b])
    else
      .ok (received, input)
  termination_by input _ => input.length

/-- `DltsConnection.readUntil(terminator, size, force=True)` (source lines
451–473): temporary acquisition around the accumulation loop.  When the loop
raises the timeout it has consumed the entire remaining input. -/
def readUntil (t : Nat) (terminator : List Nat) (size : Option Nat)
    (st : ConnState) : Except PyError (List Nat) × ConnState :=
  match acquireForTemporaryUsage t st with
  | (.error e, st1) => (.error e, st1)
  | (.ok _, st1) =>
      match readUntilLoop terminator size st1.input [] with
      | .ok (received, rest) =>
          match releaseFromTemporaryUsage t { st1 with input := rest } with
          | (.ok _, st3) => (.ok received, st3)
          | (.error e, st3) => (.error e, st3)
      | .error e =>
          match releaseFromTemporaryUsage t { st1 with input := [] } with
          | (.ok _, st3) => (.error e, st3)
          | (.error e2, st3) => (.error e2, st3)

/-- `DltsConnection.readAll()`: temporary acquisition around the raw drain. -/
def readAll (t : Nat) (st : ConnState) : Except PyError (List Nat) × ConnState :=
  match acquireForTemporaryUsage t st with
  | (.error e, st1) => (.error e, st1)
  | (.ok _, st1) =>
      let (data, st2) := readAllUnlocked st1
      match releaseFromTemporaryUsage t st2 with
      | (.ok _, st3) => (.ok data, st3)
      | (.error e, st3) => (.error e, st3)

/-- `DltsConnection.command(command, expectedResponseHeader, responseDataSize)`
(source lines 488–524).  Details preserved from the source:

* the whole header-mismatch branch is wrapped in
  `try: ... except Exception as e: cprint(...)` — the `DltsFirmwareError` and
  `DltsProtocolError` raised inside it are swallowed by that catch-all debug
  handler and execution falls through to `return data` with `data` still
  `None`;
* in the `err` sub-branch the source calls
  `self.readUntil(DltsConstants.DLTS_LINE_TERMINATOR)` whose argument is the
  str `"\r\n"`, not bytes: inside `readUntil`,
  `bytearray().endswith(terminator)` raises `TypeError` before any byte is
  read (the temporary lock acquisition is undone by the `finally`), so the
  error line is never consumed and the `TypeError` is swallowed by the same
  `except`;
* the 3 header bytes are decoded as ASCII — a byte ≥ 128 would raise
  `UnicodeDecodeError` from `bytes.decode` (outside the inner `try`);
* the payload read for a matching header (`self.read(responseDataSize)`) also
  sits outside the inner `try`, so a forced-read shortfall raises
  `DltsTimeoutError` to the caller. -/
def command (t : Nat) (cmd : List Nat) (expectedResponseHeader : List Nat)
    (responseDataSize : Nat) (st : ConnState) :
    Except PyError (Option (List Nat)) × ConnState :=
  match acquireForTemporaryUsage t st with
  | (.error e, st1) => (.error e, st1)
  | (.ok _, st0) =>
      let body : Except PyError (Option (List Nat)) × ConnState :=
        match write t cmd st0 with
        | (.error e, st1) => (.error e, st1)
        | (.ok _, st1) =>
            match read t headerLength true st1 with
            | (.error e, st2) => (.error e, st2)
            | (.ok header, st2) =>
                if ¬ header.all (· < 128) then
                  (.error .unicodeDecodeError, st2)
                else if header ≠ expectedResponseHeader then
                  let inner : Except PyError (Option (List Nat)) × ConnState :=
                    if header = errHeader then
                      (.error .typeError, st2)
                    else
                      match readAll t st2 with
                      | (.error e, st3) => (.error e, st3)
                      | (.ok _, st3) =>
                          (.error (.dltsProtocol header expectedResponseHeader
                            (cmd.take headerLength)), st3)
                  (.ok none, inner.2)
                else if responseDataSize ≠ 0 then
                  match read t responseDataSize true st2 with
                  | (.error e, st3) => (.error e, st3)
                  | (.ok data, st3) => (.ok (some data), st3)
                else
                  (.ok none, st2)
      match releaseFromTemporaryUsage t body.2 with
      | (.ok _, st4) => (body.1, st4)
      | (.error e, st4) => (.error e, st4)

end DltsConnection

/-- The connection lock is available to thread `t`: free, or already held by
`t` with a positive recursion count (which `threading.RLock` guarantees for an
owned lock). -/
def LockFreeOrMine (t : Nat) (l : RLock) : Prop :=
  l = ⟨none, 0⟩ ∨ (l.owner = some t ∧ 1 ≤ l.count)

instance (t : Nat) (l : RLock) : Decidable (LockFreeOrMine t l) := by
  unfold LockFreeOrMine; infer_instance

/-! ## The `Dlts` facade (`startScan`) -/

/-- A scan as seen by the `Dlts` facade: only its `isRunning()` answer
matters to `startScan`. -/
structure FacadeScan where
  running : Bool
  deriving DecidableEq, Repr

/-- State of a `Dlts` facade: `scan ..= _scan`, `history ..= _scanHistory`
(a deque with `maxlen = historySize`), `connected` whether the underlying
connection `IsOpen`. -/
structure DltsState where
  scan : Option FacadeScan
  history : List FacadeScan
  historySize : Nat
  connected : Bool
  deriving DecidableEq, Repr

/-- `Dlts.IsScanRunning`: `self._scan is not None and self._scan.isRunning()`. -/
def isScanRunning (d : DltsState) : Bool :=
  match d.scan with
  | some s => s.running
  | none => false

/-- `Dlts.startScan(scan)` (source lines 1489–1499).  After the running-scan
guard, the previous current scan (if any) is pushed onto the history deque
(`appendleft`; the deque `maxlen` drops the oldest entry when full) and the
new scan is installed as `_scan`.  Only then is `self._DltsConnection`
evaluated — the argument of `self._scan.start(...)` — whose guard raises
`DltsControlFlowError` when the connection is closed or a scan is running;
the mutations performed before that raise stay in place.  The thread spawn in
`scan.start` has no further effect on the facade state and is not modelled. -/
def startScan (d : DltsState) (scan : FacadeScan) :
    Except PyError Unit × DltsState :=
  if isScanRunning d then (.error .dltsControlFlow, d)
  else
    let d1 :=
      match d.scan with
      | some old => { d with history := (old :: d.history).take d.historySize }
      | none => d
    let d2 := { d1 with scan := some scan }
    if ¬ d2.connected then (.error .dltsControlFlow, d2)
    else if isScanRunning d2 then (.error .dltsControlFlow, d2)
    else (.ok (), d2)

/-! ## The two concurrent paths of a running `Scan`

`Scan._scanThreadTarget` (acquisition path) and
`Scan._scanImagesCreationThreadTarget` (image-assembly path) share
`_dataPoints`, `_scanningForDataPoints` and `_scanImages`.  The model starts
where `_scanningForDataPoints = True` has just been set and the image thread
has been started (source lines 1251–1254): from there the acquisition path
appends each received point under `_dataPointsLock` and eventually clears
`_scanningForDataPoints` (in the loop exit and, idempotently, in the
`finally`), while the image path loops: capture the flag into
`scanImagesDirty`, snapshot the points (`getDataPoints()` under the lock),
rebuild and publish the images under `_scanImagesLock`, sleep, and re-test the
captured flag.  Each lock-protected access is one atomic step; the sleep and
the actual array construction have no effect on the shared state. -/

/-- Remaining program of the acquisition path, by its effect on shared state. -/
inductive AcqPc : Type where
  | appends (pending : List Nat) : AcqPc
  | clearFlag : AcqPc
  | stopped : AcqPc
  deriving DecidableEq, Repr

/-- Program counter of the image-assembly loop: `capture` reads
`scanImagesDirty = self._scanningForDataPoints`, `snapshot` reads
`self.getDataPoints()`, `publish` writes `self._scanImages`, `check` is the
`while scanImagesDirty` test. -/
inductive ImgPc : Type where
  | capture : ImgPc
  | snapshot : ImgPc
  | publish : ImgPc
  | check : ImgPc
  | stopped : ImgPc
  deriving DecidableEq, Repr

/-- Shared and thread-local state of one running scan.  Data points are
abstracted to `Nat`.  `published` is the point snapshot from which the
currently published `_scanImages` were built (`none` before any publish);
`dirty` and `snap` are the locals of the image thread. -/
structure ScanRunState where
  points : List Nat
  scanning : Bool
  published : Option (List Nat)
  dirty : Bool
  snap : List Nat
  acq : AcqPc
  img : ImgPc
  deriving DecidableEq, Repr

/-- One atomic step of either thread. -/
inductive ScanStep : ScanRunState → ScanRunState → Prop where
  | appendPoint (s : ScanRunState) (p : Nat) (rest : List Nat)
      (h : s.acq = .appends (p :: rest)) :
      ScanStep s { s with points := s.points ++ [p], acq := .appends rest }
  | appendsDone (s : ScanRunState) (h : s.acq = .appends []) :
      ScanStep s { s with acq := .clearFlag }
  | clearScanning (s : ScanRunState) (h : s.acq = .clearFlag) :
      ScanStep s { s with scanning := false, acq := .stopped }
  | captureDirty (s : ScanRunState) (h : s.img = .capture) :
      ScanStep s { s with dirty := s.scanning, img := .snapshot }
  | snapshotPoints (s : ScanRunState) (h : s.img = .snapshot) :
      ScanStep s { s with snap := s.points, img := .publish }
  | publishImages (s : ScanRunState) (h : s.img = .publish) :
      ScanStep s { s with published := some s.snap, img := .check }
  | checkLoop (s : ScanRunState) (h : s.img = .check) :
      ScanStep s { s with img := if s.dirty then .capture else .stopped }

/-- The state right after the image thread is started: no point received yet,
`_scanningForDataPoints` true, local `scanImagesDirty` initialised to `True`,
the acquisition path about to receive the points `ps`. -/
def scanRunInit (ps : List Nat) : ScanRunState :=
  { points := [], scanning := true, published := none, dirty := true,
    snap := [], acq := .appends ps, img := .capture }

/-- Invariant of `ScanStep` executions from `scanRunInit ps`. -/
def ScanRunInv (ps : List Nat) (s : ScanRunState) : Prop :=
  (match s.acq with
    | .appends pending => ∃ done, ps = done ++ pending ∧ s.points = done
    | .clearFlag => s.points = ps
    | .stopped => s.points = ps) ∧
  (s.scanning = false → s.acq = .stopped) ∧
  ((s.img = .snapshot ∨ s.img = .publish ∨ s.img = .check) →
    s.dirty = false → s.scanning = false) ∧
  ((s.img = .publish ∨ s.img = .check) → s.dirty = false → s.snap = ps) ∧
  (s.img = .check → s.dirty = false → s.published = some ps) ∧
  (s.img = .stopped → s.dirty = false ∧ s.published = some ps)

end Dlts

/-! ## Theorems -/

namespace Dlts

/-- Claim C8: Every value above 65535 makes `_encodeToUInt16` (and the `SetUInt16`
builders on top of it) fail with the typed DLTS exception, and every value in
`0..65535` is encoded as exactly two big-endian bytes. -/
theorem encodeToUInt16_overflow_and_range (value : Int) :
    (65535 < value →
      encodeToUInt16 value = .error .dltsException ∧
      ∀ subject : List Nat, SetUInt16 subject value = .error .dltsException) ∧
    (0 ≤ value → value ≤ 65535 →
      ∃ b0 b1 : Nat, b0 < 256 ∧ b1 < 256 ∧
        encodeToUInt16 value = .ok [b0, b1] ∧
        (b0 * 256 + b1 : Int) = value) := by
  constructor
  · intro hgt
    have hcond : ¬ (0 ≤ value ∧ value < 65536) := by omega
    constructor
    · simp only [encodeToUInt16, if_neg hcond]
    · intro subject
      simp only [SetUInt16, encodeToUInt16, if_neg hcond, Except.map]
  · intro h0 h1
    have hcond : 0 ≤ value ∧ value < 65536 := by omega
    refine ⟨value.toNat / 256, value.toNat % 256, ?_, ?_, ?_, ?_⟩
    · have : value.toNat < 65536 := by omega
      omega
    · exact Nat.mod_lt _ (by norm_num)
    · simp only [encodeToUInt16, if_pos hcond]
    · omega

/-- Claim C2: For every `ScanAreaConfig` with step sizes ≥ 1 and high bounds ≥ low
bounds, `ScanResolution` is the pair of the two per-axis position counts, their
product is `ScanPositionsCount`, and each per-axis count is
`floor((high - low) / step) + 1` (the mathematical floor, `Int.fdiv`, not the
ceiling). -/
theorem scanResolution_spec (c : ScanAreaConfig)
    (_hxs : 1 ≤ c.XStepSize) (_hys : 1 ≤ c.YStepSize)
    (_hxb : c.XBoundsLow ≤ c.XBoundsHigh) (_hyb : c.YBoundsLow ≤ c.YBoundsHigh) :
    c.ScanResolution = (c.ScanPositionsCountInX, c.ScanPositionsCountInY) ∧
    c.ScanPositionsCountInX * c.ScanPositionsCountInY = c.ScanPositionsCount ∧
    c.ScanPositionsCountInX = (c.XBoundsHigh - c.XBoundsLow).fdiv c.XStepSize + 1 ∧
    c.ScanPositionsCountInY = (c.YBoundsHigh - c.YBoundsLow).fdiv c.YStepSize + 1 :=
  ⟨rfl, rfl, rfl, rfl⟩

/-- Witness for `scanResolution_spec` at the configuration
`xBounds=(0,4), yBounds=(0,2), step=(2,1)`. -/
theorem scanResolution_spec_witness :
    1 ≤ exampleConfig.XStepSize ∧ 1 ≤ exampleConfig.YStepSize ∧
    exampleConfig.XBoundsLow ≤ exampleConfig.XBoundsHigh ∧
    exampleConfig.YBoundsLow ≤ exampleConfig.YBoundsHigh ∧
    (exampleConfig.ScanResolution =
        (exampleConfig.ScanPositionsCountInX, exampleConfig.ScanPositionsCountInY) ∧
      exampleConfig.ScanPositionsCountInX * exampleConfig.ScanPositionsCountInY =
        exampleConfig.ScanPositionsCount ∧
      exampleConfig.ScanPositionsCountInX =
        (exampleConfig.XBoundsHigh - exampleConfig.XBoundsLow).fdiv
          exampleConfig.XStepSize + 1 ∧
      exampleConfig.ScanPositionsCountInY =
        (exampleConfig.YBoundsHigh - exampleConfig.YBoundsLow).fdiv
          exampleConfig.YStepSize + 1) :=
  ⟨by decide, by decide, by decide, by decide,
    scanResolution_spec exampleConfig (by decide) (by decide) (by decide) (by decide)⟩

/-- Claim C3: The configuration `xBounds=(0,4), yBounds=(0,2), step=(2,1),
delay=(0,0)` has scan resolution `(3,3)`, hence 9 points, and assembling a
reflection image from the nine single-byte points `0..8` in raster order yields
the 3×3 array `[[0,1,2],[3,4,5],[6,7,8]]` with completion `1.0`. -/
theorem reflection_scan_scenario :
    exampleConfig.ScanResolution = (3, 3) ∧
    exampleConfig.ScanPositionsCount = 9 ∧
    reflectionImageArray exampleConfig.ScanResolution examplePoints =
      [[0, 1, 2], [3, 4, 5], [6, 7, 8]] ∧
    imageCompletion exampleConfig.ScanResolution examplePoints.length = 1 := by
  have hres : exampleConfig.ScanResolution = (3, 3) := by decide
  refine ⟨hres, by decide, by decide, ?_⟩
  rw [hres]
  norm_num [imageCompletion, imageDataPointsCapacity, examplePoints]

/-- Claim C4 counterexample: For the zero-capacity configuration
(`xBounds=(1,0)`, `xStep=2`), `Scan.getProgressPercentage` does not return
`0.0`: the `None` guard does not fire (the capacity is the int `0`) and the
division raises `ZeroDivisionError`. -/
theorem progress_zero_capacity_raises :
    zeroCapacityConfig.ScanPositionsCount = 0 ∧
    scanGetProgressPercentage 0 zeroCapacityConfig = .error .zeroDivision := by
  constructor
  · decide
  · rfl

/-- Claim C4 as amended: `getProgressPercentage` returns
`scanned / capacity` whenever the capacity is some non-zero int, raises
`ZeroDivisionError` when the capacity is the int `0` (the guard tests `is not
None`, not zero — and the capacity of `Scan` is never `None`), and returns `0.0`
only for a `None` capacity. -/
theorem scanProgress_amended (scanned : Nat) (cfg : ScanAreaConfig) :
    (cfg.ScanPositionsCount ≠ 0 →
      scanGetProgressPercentage scanned cfg =
        .ok ((scanned : ℚ) / (cfg.ScanPositionsCount : ℚ))) ∧
    (cfg.ScanPositionsCount = 0 →
      scanGetProgressPercentage scanned cfg = .error .zeroDivision) ∧
    getProgressPercentage scanned none = .ok 0 := by
  refine ⟨fun h => ?_, fun h => ?_, rfl⟩ <;>
    simp [scanGetProgressPercentage, getProgressPercentage, scanGetScanPointsCount, h]

/-- Witness for `scanProgress_amended`: capacity 9 with 2 points scanned gives
`2/9`, and the zero-capacity configuration raises. -/
theorem scanProgress_amended_witness :
    scanGetProgressPercentage 2 exampleConfig = .ok ((2 : ℚ) / 9) ∧
    scanGetProgressPercentage 0 zeroCapacityConfig = .error .zeroDivision := by
  constructor
  · have h := (scanProgress_amended 2 exampleConfig).1 (by decide)
    have hc : exampleConfig.ScanPositionsCount = (9 : Int) := by decide
    rw [hc] at h
    simpa using h
  · exact ((scanProgress_amended 0 zeroCapacityConfig).2).1 (by decide)

/-- On a lock that is free or already owned by `t`, a non-blocking acquisition
succeeds and the matching release restores the original lock state. -/
theorem lock_roundtrip (t : Nat) (l : RLock) (h : LockFreeOrMine t l) :
    ∃ l1, l.tryAcquire t = (true, l1) ∧ RLock.releaseLock t l1 = .ok l := by
  obtain ⟨o, c⟩ := l
  rcases h with h | ⟨ho, hc⟩
  · rw [RLock.mk.injEq] at h
    obtain ⟨rfl, rfl⟩ := h
    exact ⟨⟨some t, 1⟩, rfl, by simp [RLock.releaseLock]⟩
  · simp only at ho
    subst ho
    refine ⟨⟨some t, c + 1⟩, ?_, ?_⟩
    · simp [RLock.tryAcquire]
    · simp only at hc
      simp [RLock.releaseLock, Nat.lt_irrefl, show ¬ c + 1 ≤ 1 by omega]

/-- Claim C6 counterexample: on a fresh (never acquired) connection,
`DltsConnection.release` is not a guarded no-op — the final
`self._comLock.release()` raises `RuntimeError` (lock underflow), because the
calling thread does not hold the reentrant lock. -/
theorem release_unacquired_counterexample :
    DltsConnection.release 0 (freshConn []) =
      (.error .runtimeError, freshConn []) := rfl

/-- Claim C6 as amended: `release()` without a prior `acquire()` leaves the
acquired flag of any other owner untouched, but it does fault: the underlying
`RLock.release()` raises a lock-underflow `RuntimeError`, both on a free lock
and on a lock held by another thread.  (The consistency hypothesis — the flag
is set only while some thread holds the lock — holds in every reachable
state.) -/
theorem release_unacquired_amended (t : Nat) (st : ConnState)
    (hown : st.lock.owner ≠ some t)
    (hwf : st.acquired = true → st.lock.owner ≠ none) :
    (DltsConnection.release t st).1 = .error .runtimeError ∧
    (DltsConnection.release t st).2.acquired = st.acquired := by
  obtain ⟨⟨o, c⟩, acq, input, output⟩ := st
  match o with
  | none =>
      have hacq : acq = false := by
        by_contra hne
        exact (hwf (by simpa using hne)) rfl
      subst hacq
      constructor <;>
        simp [DltsConnection.release, DltsConnection.isAcquiredByMe,
          RLock.tryAcquire, RLock.releaseLock]
  | some u =>
      have hut : ¬ u = t := fun h => hown (by simpa using h)
      simp [DltsConnection.release, DltsConnection.isAcquiredByMe,
        RLock.tryAcquire, RLock.releaseLock, hut]

/-- Witness for `release_unacquired_amended`: thread 0 releasing a connection
held by thread 1 (acquired flag set) gets `RuntimeError` and the flag of the
other owner stays set. -/
theorem release_unacquired_amended_witness :
    (DltsConnection.release 0 ⟨⟨some 1, 1⟩, true, [], []⟩).1 =
      .error .runtimeError ∧
    (DltsConnection.release 0 ⟨⟨some 1, 1⟩, true, [], []⟩).2.acquired = true := by
  have h := release_unacquired_amended 0 ⟨⟨some 1, 1⟩, true, [], []⟩
    (by decide) (fun _ => by decide)
  exact ⟨h.1, h.2⟩

/-- Claim C1, evaluated at the failing inputs (code bug): the source wraps the
header-mismatch handling of `command()` in a catch-all debug `except`, so the
errors the claim (and the docstring intent of the error taxonomy) describe are
never raised.  With command `gpx` (`[103,112,120]`) and expected header `ack`:

* a response `err` followed by the error line `boom\r\n` makes `command` return
  `None` normally — no `DltsFirmwareError` — and the error line is not even
  read (the `str` line terminator makes `readUntil` raise `TypeError` first,
  which the same `except` swallows);
* a response header `foo` (`[102,111,111]`) followed by two stale bytes makes
  `command` drain the input but return `None` normally — no
  `DltsProtocolError`;
* only the matching-header part of the claim holds: expected `dat` with
  `responseDataSize = 2` returns exactly the two payload bytes. -/
theorem command_mismatch_swallowed :
    DltsConnection.command 0 [103, 112, 120] ackHeader 0
        (freshConn (errHeader ++ [98, 111, 111, 109, 13, 10])) =
      (.ok none, ⟨⟨none, 0⟩, false, [98, 111, 111, 109, 13, 10], [103, 112, 120]⟩) ∧
    DltsConnection.command 0 [103, 112, 120] ackHeader 0
        (freshConn ([102, 111, 111] ++ [42, 43])) =
      (.ok none, ⟨⟨none, 0⟩, false, [], [103, 112, 120]⟩) ∧
    DltsConnection.command 0 [103, 112, 120] datHeader 2
        (freshConn (datHeader ++ [7, 8])) =
      (.ok (some [7, 8]), ⟨⟨none, 0⟩, false, [], [103, 112, 120]⟩) :=
  ⟨rfl, rfl, rfl⟩

/-- Claim C7: a forced `DltsConnection.read` that receives fewer bytes than
requested raises `DltsTimeoutError`; in particular a `command` expecting `dat`
with `responseDataSize = 2` against a transport that delivers the `dat` header,
one payload byte and then nothing raises `DltsTimeoutError` (the payload read
sits outside the swallowing `except`), not a malformed-data error. -/
theorem forced_read_shortfall (t size : Nat) (st : ConnState)
    (hlock : LockFreeOrMine t st.lock) (hshort : st.input.length < size) :
    DltsConnection.read t size true st =
      (.error .dltsTimeout, { st with input := [] }) ∧
    ∀ b : Nat, DltsConnection.command 0 [103, 112, 120] datHeader 2
        (freshConn (datHeader ++ [b])) =
      (.error .dltsTimeout, ⟨⟨none, 0⟩, false, [], [103, 112, 120]⟩) := by
  constructor
  · obtain ⟨l1, hacq, hrel⟩ := lock_roundtrip t st.lock hlock
    have htake : st.input.take size = st.input := List.take_of_length_le (by omega)
    have hdrop : st.input.drop size = [] := List.drop_eq_nil_of_le (by omega)
    simp only [DltsConnection.read, DltsConnection.acquireForTemporaryUsage,
      DltsConnection.releaseFromTemporaryUsage, DltsConnection.readUnlocked,
      hacq, hrel, htake, hdrop]
    simp [hshort]
  · intro b
    rfl

/-- Witness for `forced_read_shortfall`: a fresh connection delivering a single
byte against a forced 3-byte read. -/
theorem forced_read_shortfall_witness :
    DltsConnection.read 0 3 true (freshConn [7]) =
      (.error .dltsTimeout, ⟨⟨none, 0⟩, false, [], []⟩) ∧
    DltsConnection.command 0 [103, 112, 120] datHeader 2
        (freshConn (datHeader ++ [9])) =
      (.error .dltsTimeout, ⟨⟨none, 0⟩, false, [], [103, 112, 120]⟩) := by
  have h := forced_read_shortfall 0 3 (freshConn [7]) (Or.inl rfl) (by decide)
  exact ⟨h.1, h.2 9⟩

/-- With a size cap given, the loop guard `size < len(received)` is false at
entry (`size < 0`), so the loop body never runs: nothing is read. -/
theorem readUntilLoop_some (terminator : List Nat) (n : Nat) (input : List Nat) :
    DltsConnection.readUntilLoop terminator (some n) input [] = .ok ([], input) := by
  rw [DltsConnection.readUntilLoop.eq_def]
  simp [DltsConnection.readUntilContinue]

/-- Soundness of the accumulation loop without a size cap: a normal return
consumed a prefix of the input one byte at a time, the terminator is a suffix
of the returned bytes, and of no shorter accumulation. -/
theorem readUntilLoop_none_ok (terminator : List Nat) (input : List Nat) :
    ∀ (acc r rest : List Nat),
      DltsConnection.readUntilLoop terminator none input acc = .ok (r, rest) →
      ∃ consumed, input = consumed ++ rest ∧ r = acc ++ consumed ∧
        terminator.isSuffixOf r = true ∧
        ∀ k < consumed.length,
          terminator.isSuffixOf (acc ++ consumed.take k) = false := by
  induction input with
  | nil =>
      intro acc r rest h
      rw [DltsConnection.readUntilLoop.eq_def] at h
      by_cases hc : DltsConnection.readUntilContinue terminator none acc
      · simp [hc] at h
      · simp [hc] at h
        obtain ⟨rfl, rfl⟩ := h
        refine ⟨[], by simp, by simp, ?_, by simp⟩
        simpa [DltsConnection.readUntilContinue] using hc
  | cons b input' ih =>
      intro acc r rest h
      rw [DltsConnection.readUntilLoop.eq_def] at h
      by_cases hc : DltsConnection.readUntilContinue terminator none acc
      · simp only [hc, if_true, if_pos] at h
        obtain ⟨consumed', hin, hr, hsuf, hmin⟩ := ih (acc ++ [b]) r rest h
        refine ⟨b :: consumed', by simp [hin], by simp [hr], hsuf, ?_⟩
        intro k hk
        cases k with
        | zero =>
            have hs : terminator.isSuffixOf acc = false := by
              simpa [DltsConnection.readUntilContinue] using hc
            simpa using hs
        | succ j =>
            have hj : j < consumed'.length := by simpa using hk
            simpa [List.append_assoc] using hmin j hj
      · simp [hc] at h
        obtain ⟨rfl, rfl⟩ := h
        exact ⟨[], by simp, by simp,
          by simpa [DltsConnection.readUntilContinue] using hc, by simp⟩

/-- Completeness of the forced timeout: if no accumulation step can reach the
terminator before the transport starves, the loop raises `DltsTimeoutError`. -/
theorem readUntilLoop_none_timeout (terminator : List Nat) (input : List Nat) :
    ∀ acc : List Nat,
      (∀ k ≤ input.length, terminator.isSuffixOf (acc ++ input.take k) = false) →
      DltsConnection.readUntilLoop terminator none input acc = .error .dltsTimeout := by
  induction input with
  | nil =>
      intro acc hno
      rw [DltsConnection.readUntilLoop.eq_def]
      have h0 := hno 0 (by simp)
      simp only [List.take_zero, List.append_nil] at h0
      simp [DltsConnection.readUntilContinue, h0]
  | cons b input' ih =>
      intro acc hno
      rw [DltsConnection.readUntilLoop.eq_def]
      have h0 := hno 0 (by simp)
      simp only [List.take_zero, List.append_nil] at h0
      have hrec := ih (acc ++ [b]) (fun k hk => by
        have := hno (k + 1) (by simpa using Nat.succ_le_succ hk)
        simpa [List.append_assoc] using this)
      simp [DltsConnection.readUntilContinue, h0, hrec]

/-- `DltsConnection.readUntil` on an available lock is the pure accumulation
loop on the transport input (the temporary acquisition is undone on exit; a
loop timeout has consumed the whole remaining input). -/
theorem readUntil_eq (t : Nat) (terminator : List Nat) (size : Option Nat)
    (st : ConnState) (h : LockFreeOrMine t st.lock) :
    DltsConnection.readUntil t terminator size st =
      match DltsConnection.readUntilLoop terminator size st.input [] with
      | .ok (r, rest) => (.ok r, { st with input := rest })
      | .error e => (.error e, { st with input := [] }) := by
  obtain ⟨l1, hacq, hrel⟩ := lock_roundtrip t st.lock h
  simp only [DltsConnection.readUntil, DltsConnection.acquireForTemporaryUsage,
    DltsConnection.releaseFromTemporaryUsage, hacq]
  cases hloop : DltsConnection.readUntilLoop terminator size st.input [] with
  | ok pr =>
      obtain ⟨r, rest⟩ := pr
      simp [hloop, hrel]
  | error e =>
      simp [hloop, hrel]

/-- Claim C5: `readUntil` reads one byte at a time, accumulating exactly a
prefix of the transport input until the terminator sequence is a suffix of the
accumulated buffer (and of no shorter accumulation); the implemented size-cap
comparison `size < len(received)` is false on entry, so any given cap makes
the call return empty without reading; and under `force` the call raises
`DltsTimeoutError` when the transport starves before the terminator shows. -/
theorem readUntil_spec (t : Nat) (terminator : List Nat) (st : ConnState)
    (hlock : LockFreeOrMine t st.lock) :
    (∀ n : Nat,
      DltsConnection.readUntil t terminator (some n) st = (.ok [], st)) ∧
    (∀ r st', DltsConnection.readUntil t terminator none st = (.ok r, st') →
      st.input = r ++ st'.input ∧ terminator.isSuffixOf r = true ∧
      ∀ k < r.length, terminator.isSuffixOf (r.take k) = false) ∧
    ((∀ k ≤ st.input.length, terminator.isSuffixOf (st.input.take k) = false) →
      DltsConnection.readUntil t terminator none st =
        (.error .dltsTimeout, { st with input := [] })) := by
  refine ⟨fun n => ?_, fun r st' h => ?_, fun hno => ?_⟩
  · rw [readUntil_eq t terminator (some n) st hlock, readUntilLoop_some]
  · rw [readUntil_eq t terminator none st hlock] at h
    cases hloop : DltsConnection.readUntilLoop terminator none st.input [] with
    | ok pr =>
        obtain ⟨r0, rest0⟩ := pr
        rw [hloop] at h
        simp only [Prod.mk.injEq, Except.ok.injEq] at h
        obtain ⟨rfl, rfl⟩ := h
        obtain ⟨consumed, hin, hr, hsuf, hmin⟩ :=
          readUntilLoop_none_ok terminator st.input [] r0 rest0 hloop
        simp only [List.nil_append] at hr
        subst hr
        exact ⟨by simpa using hin, hsuf,
          fun k hk => by simpa using hmin k hk⟩
    | error e =>
        rw [hloop] at h
        simp at h
  · rw [readUntil_eq t terminator none st hlock,
      readUntilLoop_none_timeout terminator st.input [] (by simpa using hno)]

/-- Witness for `readUntil_spec`: terminator `\r\n` (`[13,10]`); the capped
variant reads nothing from `hi\r\nx`, and a transport delivering only `hi`
before starving makes the uncapped forced read time out. -/
theorem readUntil_spec_witness :
    DltsConnection.readUntil 0 [13, 10] (some 7)
        (freshConn [104, 105, 13, 10, 99]) =
      (.ok [], freshConn [104, 105, 13, 10, 99]) ∧
    DltsConnection.readUntil 0 [13, 10] none (freshConn [104, 105]) =
      (.error .dltsTimeout, { freshConn [104, 105] with input := [] }) := by
  constructor
  · exact (readUntil_spec 0 [13, 10] (freshConn [104, 105, 13, 10, 99])
      (Or.inl rfl)).1 7
  · exact (readUntil_spec 0 [13, 10] (freshConn [104, 105])
      (Or.inl rfl)).2.2 (by decide)

/-- The invariant holds in the initial state of a scan run. -/
theorem scanRunInv_init (ps : List Nat) : ScanRunInv ps (scanRunInit ps) := by
  refine ⟨⟨[], by simp, rfl⟩, ?_, ?_, ?_, ?_, ?_⟩ <;> simp [scanRunInit]

/-- The invariant is preserved by every atomic step of either thread. -/
theorem scanRunInv_step {ps : List Nat} {s s' : ScanRunState}
    (hinv : ScanRunInv ps s) (hstep : ScanStep s s') : ScanRunInv ps s' := by
  obtain ⟨ha, hb, hc, hd, he, hf⟩ := hinv
  cases hstep with
  | appendPoint p rest h =>
      rw [h] at ha
      obtain ⟨done, hps, hpts⟩ := ha
      refine ⟨⟨done ++ [p], by simp [hps], by simp [hpts]⟩, ?_, hc, hd, he, hf⟩
      intro hsc
      exact absurd (hb hsc) (by rw [h]; intro hco; cases hco)
  | appendsDone h =>
      rw [h] at ha
      obtain ⟨done, hps, hpts⟩ := ha
      refine ⟨?_, ?_, hc, hd, he, hf⟩
      · show s.points = ps
        simp at hps
        rw [hpts, hps]
      · intro hsc
        have hco := hb hsc
        rw [h] at hco
        cases hco
  | clearScanning h =>
      rw [h] at ha
      exact ⟨ha, fun _ => rfl, fun _ _ => rfl, fun hi hdf => hd hi hdf,
        fun hi hdf => he hi hdf, fun hi => hf hi⟩
  | captureDirty h =>
      refine ⟨ha, hb, ?_, ?_, ?_, ?_⟩
      · intro _ hdf
        exact hdf
      · intro hi _
        rcases hi with hi | hi <;> cases hi
      · intro hi
        cases hi
      · intro hi
        cases hi
  | snapshotPoints h =>
      refine ⟨ha, hb, ?_, ?_, ?_, ?_⟩
      · intro _ hdf
        exact hc (Or.inl h) hdf
      · intro _ hdf
        show s.points = ps
        have hsc : s.scanning = false := hc (Or.inl h) hdf
        have hacq : s.acq = .stopped := hb hsc
        rw [hacq] at ha
        exact ha
      · intro hi
        cases hi
      · intro hi
        cases hi
  | publishImages h =>
      refine ⟨ha, hb, ?_, ?_, ?_, ?_⟩
      · intro _ hdf
        exact hc (Or.inr (Or.inl h)) hdf
      · intro _ hdf
        exact hd (Or.inl h) hdf
      · intro _ hdf
        show some s.snap = some ps
        rw [hd (Or.inl h) hdf]
      · intro hi
        cases hi
  | checkLoop h =>
      by_cases hdirty : s.dirty = true
      · refine ⟨ha, hb, ?_, ?_, ?_, ?_⟩ <;>
          simp only [hdirty, if_true]
        · intro hi _
          rcases hi with hi | hi | hi <;> cases hi
        · intro hi _
          rcases hi with hi | hi <;> cases hi
        · intro hi
          cases hi
        · intro hi
          cases hi
      · have hdf : s.dirty = false := by simpa using hdirty
        refine ⟨ha, hb, ?_, ?_, ?_, ?_⟩ <;>
          simp only [hdf, if_false, Bool.false_eq_true]
        · intro hi _
          rcases hi with hi | hi | hi <;> cases hi
        · intro hi _
          rcases hi with hi | hi <;> cases hi
        · intro hi
          cases hi
        · intro _
          refine ⟨?_, he h hdf⟩
          simp [hdf]

/-- Claim C9: in every interleaved execution of the acquisition path (append
the points `ps` one at a time, then clear `scanningForDataPoints`) with the
image-assembly loop (capture the flag, snapshot the points, publish, re-test
the captured flag), the loop terminates only from an iteration whose captured
flag was false — and since that whole iteration, rebuild included, runs after
the flag became false, the images published last were built from the complete
point list `ps`. -/
theorem scanImages_final_rebuild (ps : List Nat) (s : ScanRunState)
    (hreach : Relation.ReflTransGen ScanStep (scanRunInit ps) s)
    (hstop : s.img = .stopped) :
    s.dirty = false ∧ s.published = some ps := by
  have hinv : ∀ s2, Relation.ReflTransGen ScanStep (scanRunInit ps) s2 →
      ScanRunInv ps s2 := by
    intro s2 hr
    induction hr with
    | refl => exact scanRunInv_init ps
    | tail _ hstep ih => exact scanRunInv_step ih hstep
  exact (hinv s hreach).2.2.2.2.2 hstop

/-- Witness for `scanImages_final_rebuild`: the sequential interleaving for a
single point 5 — append, clear the flag, then one full final loop iteration —
reaches the stopped state with the published snapshot `[5]`. -/
theorem scanImages_final_rebuild_witness :
    ScanRunState.dirty ⟨[5], false, some [5], false, [5], .stopped, .stopped⟩ = false ∧
    ScanRunState.published ⟨[5], false, some [5], false, [5], .stopped, .stopped⟩ =
      some [5] := by
  have hreach : Relation.ReflTransGen ScanStep (scanRunInit [5])
      ⟨[5], false, some [5], false, [5], .stopped, .stopped⟩ :=
    .head (.appendPoint _ 5 [] rfl)
      (.head (.appendsDone _ rfl)
        (.head (.clearScanning _ rfl)
          (.head (.captureDirty _ rfl)
            (.head (.snapshotPoints _ rfl)
              (.head (.publishImages _ rfl)
                (.head (.checkLoop _ rfl) .refl))))))
  exact scanImages_final_rebuild [5] _ hreach rfl

/-- Claim C10: `Dlts.startScan` when no scan is running but the connection is
closed first pushes the previous current scan (if any) into the history deque
and installs the new scan, and only then raises `DltsControlFlowError` from
the guarded `_DltsConnection` accessor — the facade state is already mutated
when the error surfaces. -/
theorem startScan_mutates_before_raise (d : DltsState) (s : FacadeScan)
    (hrun : isScanRunning d = false) (hconn : d.connected = false) :
    (startScan d s).1 = .error .dltsControlFlow ∧
    (startScan d s).2.scan = some s ∧
    (startScan d s).2.history =
      (match d.scan with
        | some old => (old :: d.history).take d.historySize
        | none => d.history) := by
  obtain ⟨scan, history, historySize, connected⟩ := d
  simp only at hconn
  subst hconn
  cases scan with
  | none => simp [startScan, isScanRunning] at hrun ⊢
  | some old =>
      have hr : old.running = false := by simpa [isScanRunning] using hrun
      simp [startScan, isScanRunning, hr]

/-- Witness for `startScan_mutates_before_raise`: a facade with one finished
scan and a closed connection; starting a new scan raises, yet the new scan is
installed and the old one was pushed to the history. -/
theorem startScan_mutates_before_raise_witness :
    (startScan ⟨some ⟨false⟩, [], 1, false⟩ ⟨false⟩).1 = .error .dltsControlFlow ∧
    (startScan ⟨some ⟨false⟩, [], 1, false⟩ ⟨false⟩).2.scan = some ⟨false⟩ ∧
    (startScan ⟨some ⟨false⟩, [], 1, false⟩ ⟨false⟩).2.history = [⟨false⟩] := by
  have h := startScan_mutates_before_raise ⟨some ⟨false⟩, [], 1, false⟩ ⟨false⟩ rfl rfl
  exact ⟨h.1, h.2.1, h.2.2⟩

/-- Witness for `encodeToUInt16_overflow_and_range` at `value = 70000` and
`value = 1234` (the latter encodes as `[4, 210]`). -/
theorem encodeToUInt16_overflow_and_range_witness :
    (encodeToUInt16 70000 = .error .dltsException ∧
      SetUInt16 [112, 120] 70000 = .error .dltsException) ∧
    ∃ b0 b1 : Nat, b0 < 256 ∧ b1 < 256 ∧
      encodeToUInt16 1234 = .ok [b0, b1] ∧ (b0 * 256 + b1 : Int) = 1234 := by
  constructor
  · exact ((encodeToUInt16_overflow_and_range 70000).1 (by norm_num)).imp
      id (fun h => h [112, 120])
  · exact (encodeToUInt16_overflow_and_range 1234).2 (by norm_num) (by norm_num)

end Dlts
